import Mathlib

/-! Verification development for the MetaPromptingFramework repository:
a shallow embedding of the template store in
`src/src/components/store.py` and of the prompt execution code in
`src/src/components/prompt_executor.py` and `src/main.py`, together
with theorems settling the specification claims.

Modelling conventions:
* Python values are the inductive `PyVal`; the Python value `None` is
  `PyVal.none`, which is at the same time the "absent" result of
  `load_template` (in Python both are the very same object `None`).
* The filesystem is an explicit `FS` record threaded through the
  operations.  The text of a YAML file is abstracted by its parse
  result (`FileData`): the serialization format itself is an external
  library (PyYAML), modelled from the spec, which describes it as a
  human-readable structured-document format with a dump/load pair.
* Exceptions raised by the environment (I/O failures, serialization
  failures, anything unexpected) are injected through `StoreEnv` and
  `LoadEnv`; each `..._try` function is the body of the corresponding
  `try:` block and returns `Except`, and the top-level function is the
  `except`-clause handler from the source, which dispatches on the
  class of the exception.
* Cyclic Python object graphs (the self-reference claim) are modelled
  as finite heaps `List (Nat × PyNode)` of object ids; the PyYAML
  dumper's anchor/alias emission is the total function `serNode`.
-/

/-- Python values, acyclic fragment: the structured data accepted by
`store_template` (`None`, booleans, integers, strings, lists, dicts
with string keys, arbitrarily nested). -/
inductive PyVal where
  | none
  | bool (b : Bool)
  | int (n : Int)
  | str (s : String)
  | list (items : List PyVal)
  | dict (entries : List (String × PyVal))

/-- Serialized YAML document trees as emitted by the PyYAML dumper on an
object graph: plain nodes plus anchors and alias references.
Modelled from the spec: the format "tolerates self-referential (cyclic)
structures by emitting anchor/alias references". -/
inductive SerTree where
  | leaf (v : PyVal)
  | anchorDict (id : Nat) (entries : List (String × SerTree))
  | anchorList (id : Nat) (items : List SerTree)
  | aliasRef (id : Nat)

/-- Contents of one file on disk, abstracted by its parse result:
`doc d` is YAML text that `yaml.safe_load` parses to the value `d`,
`anchored t` is YAML text with anchors and aliases as dumped from an
object graph, and `malformed` is text that is not syntactically valid
YAML (`yaml.safe_load` raises a `YAMLError` on it). -/
inductive FileData where
  | doc (d : PyVal)
  | anchored (t : SerTree)
  | malformed

/-- Filesystem state: the set of existing directories and a map from
file paths to file contents (later entries shadowed by earlier ones,
see `fsLookup`). -/
structure FS where
  dirs : List String
  files : List (String × FileData)

/-- Severity of a log record emitted through the `logging` module. -/
inductive LogLevel where
  | info
  | warning
  | error

/-- One log record per `logging.info` / `logging.warning` /
`logging.error` call site in `store.py`, tagged with the template name
(and the file path where the source message includes it). -/
inductive LogEntry where
  | infoStored (name file_path : String)
  | errorWriteFailed (name : String)
  | errorYamlStore (name : String)
  | errorUnexpectedStore (name : String)
  | warnNotFound (name file_path : String)
  | infoLoaded (name file_path : String)
  | errorReadFailed (name : String)
  | errorYamlLoad (name : String)
  | errorUnexpectedLoad (name : String)

/-- Severity of each log call site, as in the source. -/
def LogEntry.level : LogEntry → LogLevel
  | LogEntry.infoStored _ _ => LogLevel.info
  | LogEntry.errorWriteFailed _ => LogLevel.error
  | LogEntry.errorYamlStore _ => LogLevel.error
  | LogEntry.errorUnexpectedStore _ => LogLevel.error
  | LogEntry.warnNotFound _ _ => LogLevel.warning
  | LogEntry.infoLoaded _ _ => LogLevel.info
  | LogEntry.errorReadFailed _ => LogLevel.error
  | LogEntry.errorYamlLoad _ => LogLevel.error
  | LogEntry.errorUnexpectedLoad _ => LogLevel.error

/-- Classes of exceptions distinguished by the `except` clauses in
`store.py`: `IOError`, `yaml.YAMLError`, and every other `Exception`. -/
inductive PyExc where
  | ioError
  | yamlError
  | otherError

/-- The `except` chain of `store_template`: each clause logs an error
whose message identifies the exception class and the template name. -/
def storeExcLog : PyExc → String → LogEntry
  | PyExc.ioError, name => LogEntry.errorWriteFailed name
  | PyExc.yamlError, name => LogEntry.errorYamlStore name
  | PyExc.otherError, name => LogEntry.errorUnexpectedStore name

/-- The `except` chain of `load_template`. -/
def loadExcLog : PyExc → String → LogEntry
  | PyExc.ioError, name => LogEntry.errorReadFailed name
  | PyExc.yamlError, name => LogEntry.errorYamlLoad name
  | PyExc.otherError, name => LogEntry.errorUnexpectedLoad name

/-- Faults the environment may raise inside the `try:` block of
`store_template`: at the `mkdir` call, at `open(file_path, "w")`, or
during `yaml.dump`.  `Option.none` at a field means that operation
succeeds. -/
structure StoreEnv where
  mkdirFault : Option PyExc
  openFault : Option PyExc
  dumpFault : Option PyExc

/-- The store environment raises no fault. -/
def StoreEnv.ok (env : StoreEnv) : Bool :=
  env.mkdirFault.isNone && env.openFault.isNone && env.dumpFault.isNone

/-- Faults the environment may raise inside the `try:` block of
`load_template` (at `open(file_path, "r")` or while reading). -/
structure LoadEnv where
  readFault : Option PyExc

/-- Split a character list at every slash (auxiliary for directory
paths; `acc` holds the current segment reversed). -/
def splitSlashAux : List Char → List Char → List (List Char)
  | [], acc => [acc.reverse]
  | c :: cs, acc =>
    if c = '/' then acc.reverse :: splitSlashAux cs [] else splitSlashAux cs (c :: acc)

/-- Rejoin path segments with slashes. -/
def joinSlash : List (List Char) → List Char
  | [] => []
  | [x] => x
  | x :: xs => x ++ '/' :: joinSlash xs

/-- The proper ancestors of a directory path, outermost first:
`strictAncestors "a/b/c" = ["a", "a/b"]`.  `Path.mkdir(parents=True)`
creates these together with the directory itself. -/
def strictAncestors (p : String) : List String :=
  let parts := splitSlashAux p.data []
  (List.range (parts.length - 1)).map (fun i => String.mk (joinSlash (parts.take (i + 1))))

/-- The file path `{template_dir}/{name}.yaml` used by both operations. -/
def mkPath (template_dir name : String) : String :=
  template_dir ++ "/" ++ name ++ ".yaml"

/-- Lookup of a path in the file map; the most recent write is first. -/
def fsLookup : List (String × FileData) → String → Option FileData
  | [], _ => Option.none
  | p :: rest, q => if p.1 = q then some p.2 else fsLookup rest q

/-- Body of the `try:` block of `store_template` in
`src/src/components/store.py`: create the directory tree
(`mkdir(parents=True, exist_ok=True)`), open `{dir}/{name}.yaml` for
writing (which truncates any previous contents), `yaml.dump` the data
into it, and log success.  An injected fault aborts the block with that
exception and leaves the filesystem as modified so far (a fault during
`yaml.dump` leaves the file truncated, i.e. the empty YAML document). -/
def store_template_try (env : StoreEnv) (data : PyVal) (name : String)
    (template_dir : String) (fs : FS) : Except PyExc Bool × FS × List LogEntry :=
  match env.mkdirFault with
  | some e => (Except.error e, fs, [])
  | Option.none =>
    let fs1 : FS := ⟨template_dir :: strictAncestors template_dir ++ fs.dirs, fs.files⟩
    let file_path := mkPath template_dir name
    match env.openFault with
    | some e => (Except.error e, fs1, [])
    | Option.none =>
      match env.dumpFault with
      | some e =>
        (Except.error e, ⟨fs1.dirs, (file_path, FileData.doc PyVal.none) :: fs1.files⟩, [])
      | Option.none =>
        (Except.ok true, ⟨fs1.dirs, (file_path, FileData.doc data) :: fs1.files⟩,
          [LogEntry.infoStored name file_path])

/-- Embedding of `store_template(data, name, template_dir)` from
`src/src/components/store.py`: the `try:` body wrapped in the
`except IOError` / `except yaml.YAMLError` / `except Exception`
chain, each clause logging an error and returning `False`. -/
def store_template (env : StoreEnv) (data : PyVal) (name : String)
    (template_dir : String) (fs : FS) : Bool × FS × List LogEntry :=
  match store_template_try env data name template_dir fs with
  | (Except.ok b, fs2, logs) => (b, fs2, logs)
  | (Except.error e, fs2, logs) => (false, fs2, logs ++ [storeExcLog e name])

/-- Body of the `try:` block of `load_template`, reached only when the
file exists: open the file for reading (an injected fault aborts with
that exception), `yaml.safe_load` its contents (malformed text raises
`yaml.YAMLError`; anchored documents with recursive aliases make
`SafeLoader` raise a constructor error, also a `yaml.YAMLError`), log
success and return the parsed value. -/
def load_template_try (env : LoadEnv) (content : FileData) (name file_path : String) :
    Except PyExc PyVal × List LogEntry :=
  match env.readFault with
  | some e => (Except.error e, [])
  | Option.none =>
    match content with
    | FileData.malformed => (Except.error PyExc.yamlError, [])
    | FileData.anchored _ => (Except.error PyExc.yamlError, [])
    | FileData.doc d => (Except.ok d, [LogEntry.infoLoaded name file_path])

/-- Embedding of `load_template(name, template_dir)` from
`src/src/components/store.py`: compute `{dir}/{name}.yaml`; if the
file does not exist, log a warning and return `None` (outside the
`try:` block, so no fault can occur); otherwise run the `try:` body
wrapped in the `except` chain, each clause logging an error and
returning `None`.  The Python return value of type `dict | None` is a
single `PyVal`, with `PyVal.none` standing for `None`. -/
def load_template (env : LoadEnv) (name : String) (template_dir : String) (fs : FS) :
    PyVal × List LogEntry :=
  let file_path := mkPath template_dir name
  match fsLookup fs.files file_path with
  | Option.none => (PyVal.none, [LogEntry.warnNotFound name file_path])
  | some content =>
    match load_template_try env content name file_path with
    | (Except.ok d, logs) => (d, logs)
    | (Except.error e, logs) => (PyVal.none, logs ++ [loadExcLog e name])

/-- One node of a Python object graph: a scalar (or acyclic subobject),
a dict whose values are references to other objects by id, or a list of
references.  A node may reference itself or any ancestor, so cyclic
values such as `d = {}; d["a"] = d` are representable. -/
inductive PyNode where
  | leaf (v : PyVal)
  | dictN (entries : List (String × Nat))
  | listN (items : List Nat)

/-- The object ids a node references. -/
def PyNode.childRefs : PyNode → List Nat
  | PyNode.leaf _ => []
  | PyNode.dictN es => es.map (fun e => e.2)
  | PyNode.listN is => is

/-- The ids bound in a heap. -/
def heapIds (heap : List (Nat × PyNode)) : List Nat :=
  heap.map (fun p => p.1)

/-- Find the node bound to an id. -/
def lookupNode : List (Nat × PyNode) → Nat → Option PyNode
  | [], _ => Option.none
  | p :: rest, id => if p.1 = id then some p.2 else lookupNode rest id

/-- A heap is well formed when every reference points to a bound id
(true of every heap arising from live Python objects). -/
abbrev WFHeap (heap : List (Nat × PyNode)) : Prop :=
  ∀ p ∈ heap, ∀ c ∈ PyNode.childRefs p.2, c ∈ heapIds heap

/-- The heap contains a direct self-reference, the shape of
`d = {}; d["a"] = d` from the module test harness. -/
abbrev heapHasSelfRef (heap : List (Nat × PyNode)) : Prop :=
  ∃ p ∈ heap, p.1 ∈ PyNode.childRefs p.2

/-- Map a fallible function over a list, failing at the first failure. -/
def mapOpt (f : α → Option β) : List α → Option (List β)
  | [] => some []
  | a :: rest =>
    match f a, mapOpt f rest with
    | some b, some bs => some (b :: bs)
    | _, _ => Option.none

/-- The PyYAML representer on an object graph, with fuel.  A node that
is currently being serialized further up the tree (`id ∈ path`) is
emitted as an alias reference to its anchor instead of being descended
into again, which is how PyYAML terminates on cyclic data.  Fuel `0`
or a dangling reference yields `Option.none` (serialization failure). -/
def serNode (heap : List (Nat × PyNode)) : Nat → List Nat → Nat → Option SerTree
  | 0, _, _ => Option.none
  | fuel + 1, path, id =>
    if id ∈ path then some (SerTree.aliasRef id)
    else
      match lookupNode heap id with
      | Option.none => Option.none
      | some (PyNode.leaf v) => some (SerTree.leaf v)
      | some (PyNode.dictN es) =>
        Option.map (SerTree.anchorDict id)
          (mapOpt (fun e => Option.map (fun t => (e.1, t)) (serNode heap fuel (id :: path) e.2)) es)
      | some (PyNode.listN is) =>
        Option.map (SerTree.anchorList id)
          (mapOpt (fun cid => serNode heap fuel (id :: path) cid) is)

/-- `yaml.dump` on an object graph rooted at `root`: enough fuel for
any path of distinct live objects. -/
def yaml_dump_graph (heap : List (Nat × PyNode)) (root : Nat) : Option SerTree :=
  serNode heap (heap.length + 1) [] root

/-- Body of the `try:` block of `store_template` when the argument is a
general (possibly cyclic) object graph rather than a tree: identical to
`store_template_try` except that the `yaml.dump` step runs the graph
representer, whose failure raises a `yaml.YAMLError`. -/
def store_template_cyclic_try (env : StoreEnv) (heap : List (Nat × PyNode)) (root : Nat)
    (name : String) (template_dir : String) (fs : FS) :
    Except PyExc Bool × FS × List LogEntry :=
  match env.mkdirFault with
  | some e => (Except.error e, fs, [])
  | Option.none =>
    let fs1 : FS := ⟨template_dir :: strictAncestors template_dir ++ fs.dirs, fs.files⟩
    let file_path := mkPath template_dir name
    match env.openFault with
    | some e => (Except.error e, fs1, [])
    | Option.none =>
      match env.dumpFault with
      | some e =>
        (Except.error e, ⟨fs1.dirs, (file_path, FileData.doc PyVal.none) :: fs1.files⟩, [])
      | Option.none =>
        match yaml_dump_graph heap root with
        | Option.none =>
          (Except.error PyExc.yamlError,
            ⟨fs1.dirs, (file_path, FileData.doc PyVal.none) :: fs1.files⟩, [])
        | some t =>
          (Except.ok true, ⟨fs1.dirs, (file_path, FileData.anchored t) :: fs1.files⟩,
            [LogEntry.infoStored name file_path])

/-- `store_template` applied to a general object graph: the same
`except` chain around the graph `try:` body. -/
def store_template_cyclic (env : StoreEnv) (heap : List (Nat × PyNode)) (root : Nat)
    (name : String) (template_dir : String) (fs : FS) : Bool × FS × List LogEntry :=
  match store_template_cyclic_try env heap root name template_dir fs with
  | (Except.ok b, fs2, logs) => (b, fs2, logs)
  | (Except.error e, fs2, logs) => (false, fs2, logs ++ [storeExcLog e name])

/-- Outcome of one call to the remote generative-model capability,
covering `model.generate_content(prompt)` together with the
`response.text` extraction: a response with extractable text, a
response whose text extraction raises (blocked or empty response), a
`google.api_core` `GoogleAPICallError` raised by the call, or any
other unexpected exception. -/
inductive RemoteOutcome where
  | text (s : String)
  | noText
  | apiCallError
  | otherFault

/-- Classes of exceptions distinguished by the `except` clauses in
`prompt_executor.py`: `GoogleAPICallError` and every other
`Exception`. -/
inductive ExecExc where
  | apiCallError
  | otherFault

/-- Body of the `try:` block of `execute_prompt` in
`src/src/components/prompt_executor.py`: build the model handle,
invoke it, extract `response.text`.  `remote` is the configured remote
capability, taking the model name and the prompt. -/
def execute_prompt_try (remote : String → String → RemoteOutcome)
    (prompt model_name : String) : Except ExecExc String :=
  match remote model_name prompt with
  | RemoteOutcome.text s => Except.ok s
  | RemoteOutcome.noText => Except.error ExecExc.otherFault
  | RemoteOutcome.apiCallError => Except.error ExecExc.apiCallError
  | RemoteOutcome.otherFault => Except.error ExecExc.otherFault

/-- Embedding of `execute_prompt(prompt, model_name)` from
`src/src/components/prompt_executor.py`: the `try:` body wrapped in
`except exceptions.GoogleAPICallError` and `except Exception`, both of
which print the error and return `None`. -/
def execute_prompt (remote : String → String → RemoteOutcome)
    (prompt model_name : String) : Option String :=
  match execute_prompt_try remote prompt model_name with
  | Except.ok s => some s
  | Except.error _ => Option.none

/-- Embedding of `execute_prompt(prompt)` from `src/main.py`:
`genai.configure(api_key=google_api_key)` with the module-level key
read from the environment without any check, build the
`"gemini-2.5-pro"` model, call it, and `print(response.text)`.  There
is no `try`/`except`, so every fault propagates to the caller
(`Except.error`), and the function body ends without `return`, so on
success the Python value `None` is returned (`Except.ok Option.none`),
not the response text.  `gen` is the remote capability, taking the
configured key, the model name and the prompt. -/
def main_execute_prompt (gen : Option String → String → String → RemoteOutcome)
    (google_api_key : Option String) (prompt : String) : Except ExecExc (Option String) :=
  match gen google_api_key "gemini-2.5-pro" prompt with
  | RemoteOutcome.text _ => Except.ok Option.none
  | RemoteOutcome.noText => Except.error ExecExc.otherFault
  | RemoteOutcome.apiCallError => Except.error ExecExc.apiCallError
  | RemoteOutcome.otherFault => Except.error ExecExc.otherFault

/-- Module-level code of `src/src/components/prompt_executor.py`, run
at import time: read `GOOGLE_API_KEY`; if it is unset or falsy (the
empty string), raise `ValueError`, caught by the module-level
`except ValueError`, which prints and calls `exit(1)`.  `Except.error
c` is process termination with exit code `c`; on success the validated
key configures the client. -/
def executor_module_init (env_key : Option String) : Except Nat String :=
  match env_key with
  | Option.none => Except.error 1
  | some k => if k = "" then Except.error 1 else Except.ok k

/-- A process that imports the prompt-executor module and then calls
`execute_prompt`: the import-time credential check runs first and its
`exit(1)` prevents any prompt execution. -/
def executor_process (gen : Option String → String → String → RemoteOutcome)
    (env_key : Option String) (prompt model_name : String) : Except Nat (Option String) :=
  match executor_module_init env_key with
  | Except.error c => Except.error c
  | Except.ok k => Except.ok (execute_prompt (gen (some k)) prompt model_name)

/-- The `src/main.py` process run as a script: `load_dotenv()`, read
`google_api_key = os.getenv("GOOGLE_API_KEY")` with no check of any
kind, then under `__main__` call `execute_prompt("Hello")`.  Nothing
exits before the prompt execution is attempted, whatever the key is. -/
def main_process (gen : Option String → String → String → RemoteOutcome)
    (env_key : Option String) : Except ExecExc (Option String) :=
  main_execute_prompt gen env_key "Hello"

/-- A store environment raising no faults. -/
def envOK : StoreEnv := ⟨Option.none, Option.none, Option.none⟩

/-- A load environment raising no faults. -/
def envLOK : LoadEnv := ⟨Option.none⟩

/-- The empty filesystem. -/
def fs0 : FS := ⟨[], []⟩

/-- The concrete template of the spec scenario and of test 1 of the
module harness. -/
def greetingVal : PyVal :=
  PyVal.dict [("role", PyVal.str "system"), ("content", PyVal.str "You are a helpful assistant.")]

/-- The self-referential heap of test 5 of the module harness:
`d = {}; d["a"] = d`. -/
def heapLoop : List (Nat × PyNode) := [(0, PyNode.dictN [("a", 0)])]

/-- Lookup finds the entry just written. -/
theorem fsLookup_cons_self (p : String) (v : FileData) (rest : List (String × FileData)) :
    fsLookup ((p, v) :: rest) p = some v := by
  simp [fsLookup]

/-- The boolean fault-freeness test, unfolded. -/
theorem StoreEnv_ok_iff (env : StoreEnv) :
    StoreEnv.ok env = true ↔
      env.mkdirFault = Option.none ∧ env.openFault = Option.none
        ∧ env.dumpFault = Option.none := by
  cases env
  simp [StoreEnv.ok, Option.isNone_iff_eq_none, and_assoc]

/-- In a fault-free environment, `store_template` creates the directory
tree, writes the file and reports success with an informational log. -/
theorem store_template_ok (env : StoreEnv) (data : PyVal) (name template_dir : String)
    (fs : FS) (h : StoreEnv.ok env = true) :
    store_template env data name template_dir fs =
      (true,
        ⟨template_dir :: strictAncestors template_dir ++ fs.dirs,
          (mkPath template_dir name, FileData.doc data) :: fs.files⟩,
        [LogEntry.infoStored name (mkPath template_dir name)]) := by
  obtain ⟨h1, h2, h3⟩ := (StoreEnv_ok_iff env).mp h
  simp [store_template, store_template_try, h1, h2, h3]

/-- `store_template` reports success only in a fault-free environment. -/
theorem store_template_true_ok (env : StoreEnv) (data : PyVal) (name template_dir : String)
    (fs : FS) (h : (store_template env data name template_dir fs).1 = true) :
    StoreEnv.ok env = true := by
  cases hm : env.mkdirFault with
  | some e => simp [store_template, store_template_try, hm] at h
  | none =>
    cases ho : env.openFault with
    | some e => simp [store_template, store_template_try, hm, ho] at h
    | none =>
      cases hd : env.dumpFault with
      | some e => simp [store_template, store_template_try, hm, ho, hd] at h
      | none => exact (StoreEnv_ok_iff env).mpr ⟨hm, ho, hd⟩

/-- Loading an existing, well-formed file in a fault-free environment
returns exactly its document value with an informational log. -/
theorem load_template_doc (env : LoadEnv) (name template_dir : String) (fs : FS) (d : PyVal)
    (h : env.readFault = Option.none)
    (hfile : fsLookup fs.files (mkPath template_dir name) = some (FileData.doc d)) :
    load_template env name template_dir fs
      = (d, [LogEntry.infoLoaded name (mkPath template_dir name)]) := by
  simp [load_template, load_template_try, hfile, h]

/-- Loading a name with no file returns `None` with a warning log,
whatever faults the environment would raise (the existence check is
outside the `try:` block). -/
theorem load_template_absent (env : LoadEnv) (name template_dir : String) (fs : FS)
    (h : fsLookup fs.files (mkPath template_dir name) = Option.none) :
    load_template env name template_dir fs
      = (PyVal.none, [LogEntry.warnNotFound name (mkPath template_dir name)]) := by
  simp [load_template, h]

/-- C1: for every serializable structured value `d` and every name `n`,
`store_template(d, n, dir)` returning `True` followed by
`load_template(n, dir)` on the unchanged filesystem (with fault-free
reads) yields a value deep-equal to `d`. -/
theorem store_then_load_roundtrip (envS : StoreEnv) (envL : LoadEnv) (d : PyVal)
    (name template_dir : String) (fs : FS)
    (hL : envL.readFault = Option.none)
    (hS : (store_template envS d name template_dir fs).1 = true) :
    (load_template envL name template_dir
      (store_template envS d name template_dir fs).2.1).1 = d := by
  have hok := store_template_true_ok envS d name template_dir fs hS
  rw [store_template_ok envS d name template_dir fs hok]
  exact congrArg Prod.fst (load_template_doc envL name template_dir
    ⟨template_dir :: strictAncestors template_dir ++ fs.dirs,
      (mkPath template_dir name, FileData.doc d) :: fs.files⟩ d hL
    (fsLookup_cons_self _ _ _))

/-- Witness for C1: the concrete scenario of the spec, on the empty
filesystem. -/
theorem store_then_load_roundtrip_witness :
    (store_template envOK greetingVal "greeting" "t" fs0).1 = true
    ∧ (load_template envLOK "greeting" "t"
        (store_template envOK greetingVal "greeting" "t" fs0).2.1).1 = greetingVal :=
  ⟨rfl, store_then_load_roundtrip envOK envLOK greetingVal "greeting" "t" fs0 rfl rfl⟩

/-- C4: for every name with no corresponding file, `load_template`
returns the absent result (`None`) immediately with only a warning log,
and no fault is raised: the conclusion holds for every fault
environment, since the existence check precedes the `try:` block. -/
theorem load_template_not_found_absent (env : LoadEnv) (name template_dir : String) (fs : FS)
    (h : fsLookup fs.files (mkPath template_dir name) = Option.none) :
    load_template env name template_dir fs
      = (PyVal.none, [LogEntry.warnNotFound name (mkPath template_dir name)]) :=
  load_template_absent env name template_dir fs h

/-- Witness for C4: the spec scenario `load("missing", dir="t")` on an
empty directory. -/
theorem load_template_not_found_absent_witness :
    load_template envLOK "missing" "t" fs0
      = (PyVal.none, [LogEntry.warnNotFound "missing" (mkPath "t" "missing")]) :=
  load_template_not_found_absent envLOK "missing" "t" fs0 rfl

/-- C5: loading an existing file whose contents are not syntactically
valid YAML returns the absent result (`None`) rather than raising, and
the single emitted log entry is an error. -/
theorem load_template_malformed_absent (env : LoadEnv) (name template_dir : String) (fs : FS)
    (hr : env.readFault = Option.none)
    (h : fsLookup fs.files (mkPath template_dir name) = some FileData.malformed) :
    load_template env name template_dir fs = (PyVal.none, [LogEntry.errorYamlLoad name])
    ∧ LogEntry.level (LogEntry.errorYamlLoad name) = LogLevel.error := by
  constructor
  · simp [load_template, load_template_try, h, hr, loadExcLog]
  · rfl

/-- The malformed file of test 4 of the module harness. -/
def fsMalformed : FS :=
  ⟨[], [(mkPath "t" "invalid_yaml_template", FileData.malformed)]⟩

/-- Witness for C5: loading the malformed file of test 4. -/
theorem load_template_malformed_absent_witness :
    load_template envLOK "invalid_yaml_template" "t" fsMalformed
      = (PyVal.none, [LogEntry.errorYamlLoad "invalid_yaml_template"])
    ∧ LogEntry.level (LogEntry.errorYamlLoad "invalid_yaml_template") = LogLevel.error :=
  load_template_malformed_absent envLOK "invalid_yaml_template" "t" fsMalformed rfl rfl

/-- C6: storing `d1` under a name, then `d2` under the same name, then
loading that name yields `d2`: the second store fully overwrites the
first, last write wins. -/
theorem store_store_load_last_write_wins (env1 env2 : StoreEnv) (envL : LoadEnv)
    (d1 d2 : PyVal) (name template_dir : String) (fs : FS)
    (h1 : StoreEnv.ok env1 = true) (h2 : StoreEnv.ok env2 = true)
    (hL : envL.readFault = Option.none) :
    (load_template envL name template_dir
      (store_template env2 d2 name template_dir
        (store_template env1 d1 name template_dir fs).2.1).2.1).1 = d2 := by
  rw [store_template_ok env1 d1 name template_dir fs h1]
  rw [store_template_ok env2 d2 name template_dir _ h2]
  exact congrArg Prod.fst (load_template_doc envL name template_dir _ d2 hL
    (fsLookup_cons_self _ _ _))

/-- Witness for C6: two stores of distinct dictionaries under one name,
then a load, on the empty filesystem. -/
theorem store_store_load_last_write_wins_witness :
    (load_template envLOK "test_template_1" "t"
      (store_template envOK (PyVal.dict [("v", PyVal.int 2)]) "test_template_1" "t"
        (store_template envOK (PyVal.dict [("v", PyVal.int 1)]) "test_template_1" "t"
          fs0).2.1).2.1).1 = PyVal.dict [("v", PyVal.int 2)] :=
  store_store_load_last_write_wins envOK envOK envLOK
    (PyVal.dict [("v", PyVal.int 1)]) (PyVal.dict [("v", PyVal.int 2)])
    "test_template_1" "t" fs0 rfl rfl rfl

/-- C7: storing into a directory path that does not exist succeeds,
returning `True`, and creates the directory together with all of its
missing parents. -/
theorem store_template_creates_directory_tree (env : StoreEnv) (d : PyVal)
    (name template_dir : String) (fs : FS)
    (hok : StoreEnv.ok env = true) (hnew : template_dir ∉ fs.dirs) :
    (store_template env d name template_dir fs).1 = true
    ∧ template_dir ∈ (store_template env d name template_dir fs).2.1.dirs
    ∧ ∀ p ∈ strictAncestors template_dir,
        p ∈ (store_template env d name template_dir fs).2.1.dirs := by
  rw [store_template_ok env d name template_dir fs hok]
  refine ⟨rfl, ?_, ?_⟩
  · simp
  · intro p hp
    simp [hp]

/-- Witness for C7: a store into the absent nested directory
`new_dir/sub` (so a missing parent is involved) on the empty
filesystem. -/
theorem store_template_creates_directory_tree_witness :
    (store_template envOK (PyVal.dict [("prompt", PyVal.str "Generate a summary.")])
        "test_template_3" "new_dir/sub" fs0).1 = true
    ∧ "new_dir/sub" ∈ (store_template envOK
        (PyVal.dict [("prompt", PyVal.str "Generate a summary.")])
        "test_template_3" "new_dir/sub" fs0).2.1.dirs
    ∧ ∀ p ∈ strictAncestors "new_dir/sub",
        p ∈ (store_template envOK
          (PyVal.dict [("prompt", PyVal.str "Generate a summary.")])
          "test_template_3" "new_dir/sub" fs0).2.1.dirs :=
  store_template_creates_directory_tree envOK
    (PyVal.dict [("prompt", PyVal.str "Generate a summary.")])
    "test_template_3" "new_dir/sub" fs0 rfl (by decide)

/-- Mapping a fallible function that succeeds on every element succeeds. -/
theorem mapOpt_isSome {α β : Type} (f : α → Option β) (l : List α)
    (h : ∀ a ∈ l, (f a).isSome = true) : (mapOpt f l).isSome = true := by
  induction l with
  | nil => simp [mapOpt]
  | cons a rest ih =>
    obtain ⟨b, hb⟩ := Option.isSome_iff_exists.mp (h a (List.mem_cons_self a rest))
    obtain ⟨bs, hbs⟩ :=
      Option.isSome_iff_exists.mp (ih (fun x hx => h x (List.mem_cons_of_mem a hx)))
    simp [mapOpt, hb, hbs]

/-- Every bound id has a node. -/
theorem lookupNode_isSome (heap : List (Nat × PyNode)) (id : Nat)
    (h : id ∈ heapIds heap) : ∃ n, lookupNode heap id = some n := by
  induction heap with
  | nil => simp [heapIds] at h
  | cons p rest ih =>
    by_cases hp : p.1 = id
    · exact ⟨p.2, by simp [lookupNode, hp]⟩
    · have h2 : id ∈ heapIds rest := by
        rcases List.mem_cons.mp h with h | h
        · exact absurd h.symm hp
        · exact h
      obtain ⟨n, hn⟩ := ih h2
      exact ⟨n, by simp [lookupNode, hp, hn]⟩

/-- A successful lookup returns a binding of the heap. -/
theorem lookupNode_mem (heap : List (Nat × PyNode)) (id : Nat) (n : PyNode) :
    lookupNode heap id = some n → (id, n) ∈ heap := by
  induction heap with
  | nil => intro h; simp [lookupNode] at h
  | cons p rest ih =>
    intro h
    rw [lookupNode] at h
    split at h
    · next hp =>
      obtain ⟨p1, p2⟩ := p
      simp only [Option.some.injEq] at h
      simp only at hp
      subst hp
      subst h
      exact List.mem_cons_self _ _
    · next hp => exact List.mem_cons_of_mem _ (ih h)

/-- On a well-formed heap the representer succeeds whenever it has more
fuel than there are objects left off the current path: the path grows
only with distinct bound ids, so it can never exceed the heap size, and
every cycle is cut by an alias reference. -/
theorem serNode_isSome (heap : List (Nat × PyNode)) (hwf : WFHeap heap) :
    ∀ (fuel : Nat) (path : List Nat) (id : Nat), path.Nodup →
      (∀ x ∈ path, x ∈ heapIds heap) → id ∈ heapIds heap →
      heap.length + 1 ≤ fuel + path.length →
      (serNode heap fuel path id).isSome = true := by
  intro fuel
  induction fuel with
  | zero =>
    intro path id hnd hsub hid hlen
    exfalso
    have hle : path.length ≤ (heapIds heap).length :=
      (List.subperm_of_subset hnd hsub).length_le
    have hm : (heapIds heap).length = heap.length := List.length_map _ _
    omega
  | succ f ih =>
    intro path id hnd hsub hid hlen
    rw [serNode]
    by_cases hmem : id ∈ path
    · simp [hmem]
    · rw [if_neg hmem]
      obtain ⟨node, hnode⟩ := lookupNode_isSome heap id hid
      rw [hnode]
      have hmemheap := lookupNode_mem heap id node hnode
      have hchild : ∀ c ∈ PyNode.childRefs node, c ∈ heapIds heap :=
        fun c hc => hwf (id, node) hmemheap c hc
      have hnd2 : (id :: path).Nodup := List.nodup_cons.mpr ⟨hmem, hnd⟩
      have hsub2 : ∀ x ∈ id :: path, x ∈ heapIds heap := by
        intro x hx
        rcases List.mem_cons.mp hx with h | h
        · rw [h]; exact hid
        · exact hsub x h
      have hlen2 : heap.length + 1 ≤ f + (id :: path).length := by
        simp only [List.length_cons]
        omega
      cases node with
      | leaf v => simp
      | dictN es =>
        have hall : ∀ e ∈ es,
            (Option.map (fun t => (e.1, t)) (serNode heap f (id :: path) e.2)).isSome
              = true := by
          intro e he
          have hc : e.2 ∈ heapIds heap :=
            hchild e.2 (List.mem_map_of_mem (fun x => x.2) he)
          obtain ⟨t, ht⟩ :=
            Option.isSome_iff_exists.mp (ih (id :: path) e.2 hnd2 hsub2 hc hlen2)
          simp [ht]
        obtain ⟨l, hl⟩ := Option.isSome_iff_exists.mp (mapOpt_isSome _ es hall)
        simp [hl]
      | listN is =>
        have hall : ∀ c ∈ is, (serNode heap f (id :: path) c).isSome = true := by
          intro c hc0
          exact ih (id :: path) c hnd2 hsub2 (hchild c hc0) hlen2
        obtain ⟨l, hl⟩ := Option.isSome_iff_exists.mp (mapOpt_isSome _ is hall)
        simp [hl]

/-- On a well-formed heap, dumping from any live root succeeds. -/
theorem yaml_dump_graph_isSome (heap : List (Nat × PyNode)) (root : Nat)
    (hwf : WFHeap heap) (hroot : root ∈ heapIds heap) :
    ∃ t, yaml_dump_graph heap root = some t := by
  have h := serNode_isSome heap hwf (heap.length + 1) [] root List.nodup_nil
    (by intro x hx; simp at hx) hroot (by simp)
  exact Option.isSome_iff_exists.mp h

/-- C8: storing a structured value containing a self-reference
terminates (the representer is a total function) and, in a fault-free
environment, succeeds with `True`: the dumper cuts every cycle with an
alias reference.  `store_template_cyclic` can also return `False` (a
serialization fault mapped through the `yaml.YAMLError` clause) but
never raises to its caller and never diverges. -/
theorem store_template_cyclic_selfref_succeeds (env : StoreEnv)
    (heap : List (Nat × PyNode)) (root : Nat) (name template_dir : String) (fs : FS)
    (hwf : WFHeap heap) (hroot : root ∈ heapIds heap) (hcyc : heapHasSelfRef heap)
    (hok : StoreEnv.ok env = true) :
    (store_template_cyclic env heap root name template_dir fs).1 = true := by
  obtain ⟨h1, h2, h3⟩ := (StoreEnv_ok_iff env).mp hok
  obtain ⟨t, ht⟩ := yaml_dump_graph_isSome heap root hwf hroot
  simp [store_template_cyclic, store_template_cyclic_try, h1, h2, h3, ht]

/-- Witness for C8: test 5 of the module harness, the self-referential
dictionary `d = \x7b\x7d; d["a"] = d`. -/
theorem store_template_cyclic_selfref_succeeds_witness :
    (store_template_cyclic envOK heapLoop 0 "circular_ref_template" "t" fs0).1 = true :=
  store_template_cyclic_selfref_succeeds envOK heapLoop 0 "circular_ref_template" "t" fs0
    (by decide) (by decide) (by decide) (by decide)

/-- C9: `store_template` and `load_template` are total from the
caller's perspective.  For every fault injection, the store either
succeeds (`try` body returns `Ok True`) or every raised exception is
absorbed by the matching `except` clause into a `False` result plus an
error log entry; the load either returns the stored document value with
an informational log under a fault-free read, or the absent result
`None` — never a propagated exception (the result types `Bool` and
`PyVal` carry no fault). -/
theorem store_load_template_total :
    (∀ (env : StoreEnv) (data : PyVal) (name template_dir : String) (fs : FS),
      ((store_template_try env data name template_dir fs).1 = Except.ok true
        ∧ (store_template env data name template_dir fs).1 = true)
      ∨ (∃ e, (store_template_try env data name template_dir fs).1 = Except.error e
          ∧ (store_template env data name template_dir fs).1 = false
          ∧ (store_template env data name template_dir fs).2.2
              = (store_template_try env data name template_dir fs).2.2
                  ++ [storeExcLog e name]
          ∧ LogEntry.level (storeExcLog e name) = LogLevel.error))
    ∧ (∀ (env : LoadEnv) (name template_dir : String) (fs : FS),
      (∃ d, fsLookup fs.files (mkPath template_dir name) = some (FileData.doc d)
        ∧ load_template env name template_dir fs
            = (d, [LogEntry.infoLoaded name (mkPath template_dir name)])
        ∧ env.readFault = Option.none)
      ∨ (load_template env name template_dir fs).1 = PyVal.none) := by
  constructor
  · intro env data name template_dir fs
    cases hm : env.mkdirFault with
    | some e =>
      right
      refine ⟨e, ?_, ?_, ?_, ?_⟩
      · simp [store_template_try, hm]
      · simp [store_template, store_template_try, hm]
      · simp [store_template, store_template_try, hm]
      · cases e <;> rfl
    | none =>
      cases ho : env.openFault with
      | some e =>
        right
        refine ⟨e, ?_, ?_, ?_, ?_⟩
        · simp [store_template_try, hm, ho]
        · simp [store_template, store_template_try, hm, ho]
        · simp [store_template, store_template_try, hm, ho]
        · cases e <;> rfl
      | none =>
        cases hd : env.dumpFault with
        | some e =>
          right
          refine ⟨e, ?_, ?_, ?_, ?_⟩
          · simp [store_template_try, hm, ho, hd]
          · simp [store_template, store_template_try, hm, ho, hd]
          · simp [store_template, store_template_try, hm, ho, hd]
          · cases e <;> rfl
        | none =>
          left
          constructor <;> simp [store_template, store_template_try, hm, ho, hd]
  · intro env name template_dir fs
    cases hf : fsLookup fs.files (mkPath template_dir name) with
    | none =>
      right
      simp [load_template, hf]
    | some content =>
      cases hr : env.readFault with
      | some e =>
        right
        simp [load_template, load_template_try, hf, hr]
      | none =>
        cases content with
        | doc d =>
          left
          exact ⟨d, rfl, by simp [load_template, load_template_try, hf, hr], rfl⟩
        | anchored t =>
          right
          simp [load_template, load_template_try, hf, hr]
        | malformed =>
          right
          simp [load_template, load_template_try, hf, hr]

/-- The file of an existing but empty template: `yaml.safe_load` of an
empty file (or of the literal document `null`) is Python `None`. -/
def fsNullFile : FS := ⟨[], [(mkPath "t" "empty", FileData.doc PyVal.none)]⟩

/-- A stored template whose document is a list, not a mapping. -/
def fsListFile : FS :=
  ⟨[], [(mkPath "t" "empty", FileData.doc (PyVal.list [PyVal.int 1, PyVal.str "x"]))]⟩

/-- C10: loading an existing file holding the empty/null document
returns `None` — the very value returned for a missing file — while
logging success at the informational level, so the return value cannot
distinguish an existing empty template from a missing one; and in
general the loaded value is whatever document the file holds (scalar or
sequence included), not only a mapping. -/
theorem load_template_null_doc_indistinguishable (env : LoadEnv)
    (name template_dir : String) (fs : FS)
    (hr : env.readFault = Option.none)
    (hf : fsLookup fs.files (mkPath template_dir name) = some (FileData.doc PyVal.none)) :
    load_template env name template_dir fs
      = (PyVal.none, [LogEntry.infoLoaded name (mkPath template_dir name)])
    ∧ LogEntry.level (LogEntry.infoLoaded name (mkPath template_dir name)) = LogLevel.info
    ∧ (∀ fs2 : FS, fsLookup fs2.files (mkPath template_dir name) = Option.none →
        (load_template env name template_dir fs).1
          = (load_template env name template_dir fs2).1)
    ∧ (∀ (d : PyVal) (fs3 : FS),
        fsLookup fs3.files (mkPath template_dir name) = some (FileData.doc d) →
        (load_template env name template_dir fs3).1 = d) := by
  refine ⟨load_template_doc env name template_dir fs PyVal.none hr hf, rfl, ?_, ?_⟩
  · intro fs2 h2
    rw [load_template_doc env name template_dir fs PyVal.none hr hf,
      load_template_absent env name template_dir fs2 h2]
  · intro d fs3 h3
    rw [load_template_doc env name template_dir fs3 d hr h3]

/-- Witness for C10: an existing null-document file versus the empty
filesystem, and a list-valued document. -/
theorem load_template_null_doc_indistinguishable_witness :
    load_template envLOK "empty" "t" fsNullFile
      = (PyVal.none, [LogEntry.infoLoaded "empty" (mkPath "t" "empty")])
    ∧ (load_template envLOK "empty" "t" fsNullFile).1
        = (load_template envLOK "empty" "t" fs0).1
    ∧ (load_template envLOK "empty" "t" fsListFile).1
        = PyVal.list [PyVal.int 1, PyVal.str "x"] := by
  have h := load_template_null_doc_indistinguishable envLOK "empty" "t" fsNullFile rfl rfl
  exact ⟨h.1, h.2.2.1 fs0 rfl, h.2.2.2 (PyVal.list [PyVal.int 1, PyVal.str "x"]) fsListFile rfl⟩

/-- C2: for every prompt string and model identifier, the component
`execute_prompt` of `prompt_executor.py` returns the generated response
text exactly when the remote capability succeeds with that text, and
returns the absent result `None` whenever the `try` body raises any
fault — including a call-level `GoogleAPICallError` signaled by the
remote capability — so no fault ever reaches the caller. -/
theorem execute_prompt_contains_faults :
    ∀ (remote : String → String → RemoteOutcome) (prompt model_name : String),
      (∃ s, remote model_name prompt = RemoteOutcome.text s
        ∧ execute_prompt_try remote prompt model_name = Except.ok s
        ∧ execute_prompt remote prompt model_name = some s)
      ∨ (∃ e, execute_prompt_try remote prompt model_name = Except.error e
          ∧ execute_prompt remote prompt model_name = Option.none) := by
  intro remote prompt model_name
  cases h : remote model_name prompt with
  | text s =>
    left
    exact ⟨s, rfl, by simp [execute_prompt_try, h],
      by simp [execute_prompt, execute_prompt_try, h]⟩
  | noText =>
    right
    exact ⟨ExecExc.otherFault, by simp [execute_prompt_try, h],
      by simp [execute_prompt, execute_prompt_try, h]⟩
  | apiCallError =>
    right
    exact ⟨ExecExc.apiCallError, by simp [execute_prompt_try, h],
      by simp [execute_prompt, execute_prompt_try, h]⟩
  | otherFault =>
    right
    exact ⟨ExecExc.otherFault, by simp [execute_prompt_try, h],
      by simp [execute_prompt, execute_prompt_try, h]⟩

/-- Counterexample for C3 as stated: the `main.py` process is a process
that can execute prompts, yet with no API credential resolvable
(`env_key = Option.none`) it performs no startup check, reaches the
prompt execution (`execute_prompt("Hello")` under `__main__`), and
completes it normally — no non-zero exit ever happens before a prompt
is executed. -/
theorem main_process_no_credential_executes_prompt :
    main_process (fun _ _ _ => RemoteOutcome.text "Hi there") Option.none
      = Except.ok Option.none := rfl

/-- C3 (amended): a process that imports the prompt-executor component
fails fast with exit code 1 — before any prompt can be executed — when
the `GOOGLE_API_KEY` environment variable is unset or empty; the
`main.py` process performs no such check (see the counterexample). -/
theorem executor_process_fails_fast_without_credential
    (gen : Option String → String → String → RemoteOutcome) (env_key : Option String)
    (prompt model_name : String)
    (h : env_key = Option.none ∨ env_key = some "") :
    executor_process gen env_key prompt model_name = Except.error 1 := by
  rcases h with h | h <;> subst h <;> rfl

/-- Witness for the amended C3: a concrete prompt against a healthy
remote capability, in a process whose environment lacks the key. -/
theorem executor_process_fails_fast_without_credential_witness :
    executor_process (fun _ _ _ => RemoteOutcome.text "Hi there") Option.none
      "Explain the concept of a meta-prompt in one sentence." "gemini-2.5-flash"
      = Except.error 1 :=
  executor_process_fails_fast_without_credential
    (fun _ _ _ => RemoteOutcome.text "Hi there") Option.none
    "Explain the concept of a meta-prompt in one sentence." "gemini-2.5-flash"
    (Or.inl rfl)
